import Mathlib

/-!
Verification of the furniture-search / AI-interior-design backend.

This file shallowly embeds the backend's pure logic:

* `backend/utils/image_utils.py` — MIME detection, data-URI encode/decode
  (base64 implemented bit-for-bit; the greedy regex strip of
  `re.sub('^data:image/.+;base64,', '', uri)` is modelled by taking the
  longest anchored match).
* `backend/core/prompts.py` — the prompt templates.
* `backend/services/ai_service.py` — `GeminiService.generate_image`, with the
  remote model's behaviour supplied as an explicit outcome value.
* `backend/services/lambda_search_service.py` — `LambdaCLIPService.
  get_image_embedding` over a small JSON model, and
  `LambdaFurnitureSearcher.search` over rational-number vectors.
* `backend/api/routes.py` — the `redesign` and `search-furniture` routes,
  with every remote/library call an explicit outcome parameter.

Conventions: Python byte strings are `List ℕ` (values < 256), Python text
strings are `String` except inside the codec where character code points
(`List ℕ`) make the regex model arithmetic-friendly.  Remote HTTP calls,
the Pillow image library and the Gemini SDK are external to the repository;
their per-call behaviour enters as explicit oracle arguments, so each
function here is the deterministic rest of the Python function.
Floating-point numbers are modelled as rationals; `natSqrt` below stands in
for the float square root inside `np.linalg.norm` — no theorem in this file
depends on the numeric values it produces, only on the ordering logic that
surrounds it.
-/

/-! ### Python string helpers -/

/-- Python `str.lower()` (ASCII case folding, which covers every string the
embedded code lowercases). -/
def pyLower (s : String) : String := ⟨s.data.map Char.toLower⟩

/-- Python `str.strip()`: remove leading and trailing whitespace. -/
def pyStrip (s : String) : String :=
  ⟨((s.data.dropWhile Char.isWhitespace).reverse.dropWhile Char.isWhitespace).reverse⟩

/-! ### Pillow as an oracle, and `detect_image_mime_type` -/

/-- Outcome of `PIL.Image.open` on a byte payload: either it raises, or it
returns an image object whose `format` attribute may be `None` or a format
name such as `"JPEG"`, `"PNG"`, `"WEBP"`. -/
inductive PILOutcome
  | failure
  | opened (format : Option String)
deriving DecidableEq

/-- The `format_to_mime` dictionary lookup with fallback `'image/png'` from
`detect_image_mime_type`. -/
def formatToMime (fl : String) : String :=
  (([("jpeg", "image/jpeg"), ("jpg", "image/jpeg"), ("png", "image/png"),
     ("webp", "image/webp"), ("gif", "image/gif")] : List (String × String)).lookup fl).getD
    "image/png"

/-- `backend/utils/image_utils.py: detect_image_mime_type`.  Empty bytes and
any `Image.open` failure fall back to `'image/png'`; otherwise the PIL format
name is lowercased and mapped through `formatToMime`. -/
def detect_image_mime_type (image_bytes : List ℕ) (pil : PILOutcome) : String :=
  if image_bytes.isEmpty then "image/png"
  else
    match pil with
    | .failure => "image/png"
    | .opened fmt => formatToMime (pyLower (fmt.getD ""))

/-! ### Base64 (Python `base64.b64encode` / `b64decode`) -/

/-- ASCII code of the base64 digit for a 6-bit value. -/
def b64CodeOf (n : ℕ) : ℕ :=
  if n < 26 then 65 + n
  else if n < 52 then 97 + (n - 26)
  else if n < 62 then 48 + (n - 52)
  else if n = 62 then 43
  else 47

/-- Inverse digit table of `b64CodeOf`; `none` for characters outside the
base64 alphabet. -/
def b64ValOf (c : ℕ) : Option ℕ :=
  if 65 ≤ c ∧ c ≤ 90 then some (c - 65)
  else if 97 ≤ c ∧ c ≤ 122 then some (c - 97 + 26)
  else if 48 ≤ c ∧ c ≤ 57 then some (c - 48 + 52)
  else if c = 43 then some 62
  else if c = 47 then some 63
  else none

/-- `base64.b64encode`: bytes to base64 character codes, three input bytes per
four output characters, `'='` (code 61) padding on a final group of one or two
bytes. -/
def b64Encode : List ℕ → List ℕ
  | [] => []
  | [a] => [b64CodeOf (a / 4), b64CodeOf (a % 4 * 16), 61, 61]
  | [a, b] => [b64CodeOf (a / 4), b64CodeOf (a % 4 * 16 + b / 16),
               b64CodeOf (b % 16 * 4), 61]
  | a :: b :: c :: rest =>
    b64CodeOf (a / 4) :: b64CodeOf (a % 4 * 16 + b / 16) ::
    b64CodeOf (b % 16 * 4 + c / 64) :: b64CodeOf (c % 64) :: b64Encode rest

/-- `base64.b64decode` on well-formed input: four characters per three bytes,
padding only in a final quad.  Inputs Python would reject with
`binascii.Error` yield `none` (the caller catches the exception). -/
def b64Decode : List ℕ → Option (List ℕ)
  | [] => some []
  | c1 :: c2 :: c3 :: c4 :: rest =>
    match b64ValOf c1, b64ValOf c2 with
    | some v1, some v2 =>
      if c3 = 61 then
        if c4 = 61 ∧ rest = [] then some [v1 * 4 + v2 / 16] else none
      else
        match b64ValOf c3 with
        | some v3 =>
          if c4 = 61 then
            if rest = [] then some [v1 * 4 + v2 / 16, v2 % 16 * 16 + v3 / 4] else none
          else
            match b64ValOf c4, b64Decode rest with
            | some v4, some tail =>
              some ((v1 * 4 + v2 / 16) :: (v2 % 16 * 16 + v3 / 4) ::
                    (v3 % 4 * 64 + v4) :: tail)
            | _, _ => none
        | none => none
    | _, _ => none
  | _ => none

/-! ### Data URIs (`process_image_for_frontend` / `decode_frontend_image`) -/

/-- Code points of a string literal, for building data URIs. -/
def strCodes (s : String) : List ℕ := s.toList.map Char.toNat

/-- The fixed leading text the regex `^data:image/.+;base64,` requires. -/
def dataUriHead : List ℕ := strCodes "data:image/"

/-- The `';base64,'` marker the regex requires after the MIME subtype. -/
def b64Marker : List ℕ := strCodes ";base64,"

/-- Whether the regex `^data:image/.+;base64,` matches exactly the first `i`
characters of `u`: that prefix starts with `data:image/`, ends with
`;base64,`, and has at least one character between them, none a newline
(`.` does not match `'\n'`). -/
def uriMatchAt (u : List ℕ) (i : ℕ) : Bool :=
  let pre := u.take i
  decide (dataUriHead.length + b64Marker.length < pre.length ∧
    pre.take dataUriHead.length = dataUriHead ∧
    pre.drop (pre.length - b64Marker.length) = b64Marker ∧
    ∀ c ∈ (pre.drop dataUriHead.length).take
        (pre.length - dataUriHead.length - b64Marker.length), c ≠ 10)

/-- Largest `i ≤ n` at which the anchored pattern matches — the greedy `.+`
makes `re.sub` remove the longest such prefix. -/
def bestMatchAux (u : List ℕ) : ℕ → Option ℕ
  | 0 => if uriMatchAt u 0 then some 0 else none
  | i + 1 => if uriMatchAt u (i + 1) then some (i + 1) else bestMatchAux u i

/-- `re.sub('^data:image/.+;base64,', '', uri)`: remove the longest anchored
match, or leave the string unchanged when the pattern does not match. -/
def stripDataUri (u : List ℕ) : List ℕ :=
  match bestMatchAux u u.length with
  | none => u
  | some i => u.drop i

/-- `backend/utils/image_utils.py: process_image_for_frontend`.  Empty bytes
give `None`; otherwise a `data:{mime};base64,{payload}` URI (as code points)
with the MIME type from `detect_image_mime_type`. -/
def process_image_for_frontend (image_bytes : List ℕ) (pil : PILOutcome) :
    Option (List ℕ) :=
  if image_bytes.isEmpty then none
  else
    some (strCodes "data:" ++ strCodes (detect_image_mime_type image_bytes pil) ++
          strCodes ";base64," ++ b64Encode image_bytes)

/-- `backend/utils/image_utils.py: decode_frontend_image`.  A missing or empty
URI gives `None`; otherwise the data-URI prefix is stripped and the remainder
base64-decoded, any decoding error giving `None` (the Python `except` clause).
-/
def decode_frontend_image (uri : Option (List ℕ)) : Option (List ℕ) :=
  match uri with
  | none => none
  | some u => if u.isEmpty then none else b64Decode (stripDataUri u)

/-! ### Prompt templates (`backend/core/prompts.py`) -/

/-- `get_empty_room_prompt`: the fixed room-emptying instruction. -/
def get_empty_room_prompt : String :=
  "Remove all furniture, people, and objects from this room. " ++
  "Show the room completely empty with bare walls and flooring. " ++
  "Keep the exact architecture, size, window positions, lighting, and perspective unchanged. " ++
  "Photorealistic."

/-- `get_design_prompt`: the furnishing instruction, with the optional
additional instructions appended when non-empty and non-whitespace
(the route always passes a string, so the Python `None` default is not
reachable from the embedded callers). -/
def get_design_prompt (style room_type additional_instructions : String) : String :=
  let base_prompt :=
    "Furnish this empty room as a " ++ style ++ " " ++ room_type ++ ". " ++
    "Keep the exact architecture, size, window positions, lighting, and perspective unchanged. " ++
    "Add furniture, rugs, and decor matching the style. Photorealistic."
  if additional_instructions ≠ "" ∧ pyStrip additional_instructions ≠ "" then
    base_prompt ++ " " ++ pyStrip additional_instructions
  else base_prompt

/-! ### `GeminiService.generate_image` (`backend/services/ai_service.py`) -/

/-- One part of a Gemini response; `inline_data` carries the binary payload
when present. -/
structure ResponsePart where
  inline_data : Option (List ℕ)
deriving DecidableEq

/-- What the `generate_content` call did: raised some exception (transport
failure, missing candidates are folded in by the surrounding `try`), or
returned candidates, each a list of parts. -/
inductive GeminiOutcome
  | raises
  | returns (candidates : List (List ResponsePart))
deriving DecidableEq

/-- `GeminiService.generate_image`: total over its outcomes.  Any exception —
including indexing an empty candidate list — is caught and yields `none`;
otherwise the data of the first part with inline data is returned, or `none`
when no part has any. -/
def generate_image (outcome : GeminiOutcome) : Option (List ℕ) :=
  match outcome with
  | .raises => none
  | .returns candidates =>
    match candidates.head? with
    | none => none
    | some parts => (parts.find? (fun p => p.inline_data.isSome)).bind (·.inline_data)

/-! ### `LambdaCLIPService.get_image_embedding`
(`backend/services/lambda_search_service.py`, the client wired into the app) -/

/-- JSON values, enough to model the Lambda response payload. -/
inductive Json
  | null
  | bool (b : Bool)
  | num (q : ℚ)
  | str (s : String)
  | arr (items : List Json)
  | obj (fields : List (String × Json))

/-- Python `float(x)` on a JSON leaf: numbers and booleans convert, everything
else raises (`float` of a numeric string would also succeed in Python, but no
payload in this development carries one). -/
def floatOfJson : Json → Option ℚ
  | .num q => some q
  | .bool b => some (if b then 1 else 0)
  | _ => none

/-- `[float(x) for x in xs]`: `none` when some element raises. -/
def floatList : List Json → Option (List ℚ)
  | [] => some []
  | x :: xs =>
    match floatOfJson x, floatList xs with
    | some q, some qs => some (q :: qs)
    | _, _ => none

/-- The embedding client: its `url` field is `url or Config.LAMBDA_CLIP_URL`,
so `none` or the empty string mean "not configured". -/
structure LambdaCLIPService where
  url : Option String
deriving DecidableEq

/-- Python truthiness of the optional URL string. -/
def urlTruthy : Option String → Bool
  | none => false
  | some s => s ≠ ""

/-- What the `requests.post` + `resp.json()` sequence did: any
`requests.RequestException` (connection error, HTTP error status, undecodable
JSON body), or a decoded payload. -/
inductive TransportOutcome
  | failure
  | success (payload : Json)

/-- The distinct ways `get_image_embedding` raises: the configuration
`ValueError`, the payload/shape `ValueError`s, a re-raised transport error,
and an element-conversion error (`float` of a non-numeric element). -/
inductive EmbedError
  | notConfigured
  | badShape
  | transport
  | conversionError
deriving DecidableEq

/-- Unwrap a single-element nested list: `[[...]] -> [...]`. -/
def unwrapNested : Json → Json
  | .arr [Json.arr xs] => .arr xs
  | e => e

/-- Extract an embedding wrapped in a dict: `{'embedding': v} -> v` (only when
the key is present). -/
def unwrapDict : Json → Json
  | .obj kvs =>
    match kvs.lookup "embedding" with
    | some v => v
    | none => .obj kvs
  | e => e

/-- `LambdaCLIPService.get_image_embedding`, from the point where the image
bytes are in hand (the numpy-array branch of the source can never fire on a
JSON-decoded value and is omitted).  Raising is modelled as `Except.error`. -/
def LambdaCLIPService.get_image_embedding (svc : LambdaCLIPService)
    (outcome : TransportOutcome) : Except EmbedError (List ℚ) :=
  if urlTruthy svc.url = false then .error .notConfigured
  else
    match outcome with
    | .failure => .error .transport
    | .success payload =>
      match payload with
      | .obj kvs =>
        match kvs.lookup "embedding" with
        | none => .error .badShape
        | some emb =>
          match unwrapDict (unwrapNested emb) with
          | .arr xs =>
            if xs.length = 512 then
              match floatList xs with
              | some qs => .ok qs
              | none => .error .conversionError
            else .error .badShape
          | _ => .error .badShape
      | _ => .error .badShape

/-! ### `LambdaFurnitureSearcher` (`backend/services/lambda_search_service.py`) -/

/-- Fuel-driven integer square-root iteration (Newton steps), kernel-reducible
stand-in for the floating-point square root inside `np.linalg.norm`.  No
theorem below depends on the values this produces. -/
def sqrtIter : ℕ → ℕ → ℕ → ℕ
  | 0, _, guess => guess
  | fuel + 1, n, guess =>
    let next := (guess + n / guess) / 2
    if next < guess then sqrtIter fuel n next else guess

/-- Integer square root used by `ratSqrt`. -/
def natSqrt (n : ℕ) : ℕ :=
  if n ≤ 1 then n else sqrtIter n n (n / 2)

/-- Rational stand-in for the float square root (exact on perfect squares of
naturals; approximate otherwise, as floats are). -/
def ratSqrt (q : ℚ) : ℚ := (natSqrt q.num.toNat : ℚ) / (natSqrt q.den : ℚ)

/-- Dot product of two vectors (`np.dot` on 1-d arrays), zipping to the
shorter length as the model of equal-shaped arrays. -/
def dot (v w : List ℚ) : ℚ := (List.zipWith (· * ·) v w).sum

/-- `np.linalg.norm v` — Euclidean norm. -/
def vecNorm (v : List ℚ) : ℚ := ratSqrt (dot v v)

/-- `v / (np.linalg.norm(v) + 1e-8)` — L2 normalisation with the epsilon
guard against division by zero. -/
def l2Normalize (v : List ℚ) : List ℚ :=
  v.map (fun x => x / (vecNorm v + 1 / 100000000))

/-- Index comparison by score, the order `np.argsort` sorts by
(out-of-range indices read as 0; `argsortAsc` only ever compares in-range
indices). -/
def idxLe (scores : List ℚ) (i j : ℕ) : Prop := scores.getD i 0 ≤ scores.getD j 0

instance (scores : List ℚ) : DecidableRel (idxLe scores) := fun i j =>
  inferInstanceAs (Decidable (scores.getD i 0 ≤ scores.getD j 0))

instance (scores : List ℚ) : IsTotal ℕ (idxLe scores) :=
  ⟨fun _ _ => le_total _ _⟩

instance (scores : List ℚ) : IsTrans ℕ (idxLe scores) :=
  ⟨fun _ _ _ h h' => le_trans h h'⟩

/-- `np.argsort(scores)`: the indices `0 .. scores.length - 1` sorted so the
scores they point at ascend (any sort consistent with the values models
numpy's). -/
def argsortAsc (scores : List ℚ) : List ℕ :=
  (List.range scores.length).insertionSort (idxLe scores)

/-- `np.argsort(similarity_scores)[::-1][:top_k]` — indices of the `top_k`
largest scores, best first. -/
def topIndices (scores : List ℚ) (topK : ℕ) : List ℕ :=
  (argsortAsc scores).reverse.take topK

/-- A product row from the metadata CSV, as the dict `to_dict('index')`
produces for it: column name to (stringified) value.  Python truthiness of
the dict is emptiness of this list. -/
abbrev Item := List (String × String)

/-- `item.get(key, default)`. -/
def dictGet (item : Item) (key dflt : String) : String :=
  (item.lookup key).getD dflt

/-- The successfully loaded search data: `df_embeddings['clean_id']` row by
row, `product_lookup`, and the stacked embedding matrix.  The loader either
fills all of these or leaves `df_data = None`, so they are bundled. -/
structure SearchDB where
  embIds : List String
  products : List (String × Item)
  datasetEmbeddings : List (List ℚ)
deriving DecidableEq

/-- One entry of the search response list. -/
structure SearchResult where
  score : ℚ
  title : String
  price : String
  source : String
  image_url : String
  search_query : String
deriving DecidableEq

/-- `LambdaFurnitureSearcher` state after `__init__`: `df_data` is `None`
exactly when loading failed (file missing or exception), and `clip_service`
is `None` when the loading exception handler cleared it. -/
structure LambdaFurnitureSearcher where
  df_data : Option SearchDB
  clip_service : Option Unit
deriving DecidableEq

/-- The two `RuntimeError`s `search` can raise. -/
inductive SearchError
  | datasetNotLoaded
  | clipNotInitialized
deriving DecidableEq

/-- The body of the per-item `try` in the result loop: `iloc` lookup of the
row's `clean_id` (an out-of-range index raises and is skipped), dict lookup
(`None`, and falsy empty dicts, are skipped by `if item:`), then the
`SearchResult` construction with its `get` defaults and the synthesized
`search_query = f"{title} {source}"` using empty-string defaults. -/
def resultAt (db : SearchDB) (scores : List ℚ) (idx : ℕ) : Option SearchResult :=
  match db.embIds[idx]? with
  | none => none
  | some clean_id =>
    match db.products.lookup clean_id with
    | none => none
    | some item =>
      if item = [] then none
      else
        some { score := scores.getD idx 0
               title := dictGet item "title" "Unknown Item"
               price := dictGet item "price" "N/A"
               source := dictGet item "source" ""
               image_url := dictGet item "image_url" ""
               search_query := dictGet item "title" "" ++ " " ++ dictGet item "source" "" }

/-- The similarity scores of one query: the query embedding and every dataset
row are L2-normalised, and each normalised row is dotted with the normalised
query (`np.dot(dataset_embeddings_normalized, query_embedding)`). -/
def searchScores (db : SearchDB) (emb : List ℚ) : List ℚ :=
  (db.datasetEmbeddings.map l2Normalize).map (fun row => dot row (l2Normalize emb))

/-- `LambdaFurnitureSearcher.search`.  `clipResult` is what
`clip_service.get_image_embedding` did for this query image;
`Except.error` on its side — like any exception inside the big `try`,
including the RGB conversion — leads to the blanket `return []`.  The two
`if ... is None` guards before the `try` raise `RuntimeError`
(`Except.error` on the search side). -/
def LambdaFurnitureSearcher.search (s : LambdaFurnitureSearcher)
    (clipResult : Except EmbedError (List ℚ)) (top_k : ℕ) :
    Except SearchError (List SearchResult) :=
  match s.df_data with
  | none => .error .datasetNotLoaded
  | some db =>
    match s.clip_service with
    | none => .error .clipNotInitialized
    | some _ =>
      match clipResult with
      | .error _ => .ok []
      | .ok emb =>
        .ok ((topIndices (searchScores db emb) top_k).filterMap
              (resultAt db (searchScores db emb)))

/-! ### Routes (`backend/api/routes.py`) -/

/-- HTTP responses the search-furniture route can produce: a 400 with a
message, the 503 `'Search unavailable: embeddings or dataset not loaded'`,
a 500, or a 200 with the result list. -/
inductive HttpResponse
  | badRequest (msg : String)
  | unavailable
  | serverError (msg : String)
  | okResults (results : List SearchResult)
deriving DecidableEq

/-- The route's call to `search_service.search(cropped_img, top_k=4)` with
its `except RuntimeError` handler: a raised `RuntimeError` becomes the 503,
a returned list becomes the 200. -/
def routeSearchDispatch (s : LambdaFurnitureSearcher)
    (clipResult : Except EmbedError (List ℚ)) : HttpResponse :=
  match s.search clipResult 4 with
  | .error _ => .unavailable
  | .ok results => .okResults results

/-- A form field value as seen by `float(...)`: it parses to a number or it
does not (Python would also parse numeric strings; which strings parse is
irrelevant to every claim, so the field carries its parse outcome). -/
inductive FormVal
  | num (q : ℚ)
  | nonNumeric
deriving DecidableEq

/-- `float(request.form.get(key, 0))`: an absent field defaults to `0`,
a present non-numeric one raises (`none`). -/
def parseWithDefault : Option FormVal → Option ℚ
  | none => some 0
  | some (.num q) => some q
  | some .nonNumeric => none

/-- `float(request.form.get(key))`: an absent field is `None`, so `float`
raises `TypeError` (`none`), as does a non-numeric value. -/
def parseRequired : Option FormVal → Option ℚ
  | none => none
  | some (.num q) => some q
  | some .nonNumeric => none

/-- One `/api/search-furniture` request together with the behaviour of the
external calls it would trigger: the form fields, the uploaded bytes, Pillow's
verdict per byte string, whether the crop-and-letterbox block raises, and the
searcher state plus the embedding outcome for the cropped image. -/
structure SearchRequest where
  hasImageKey : Bool
  fileSelected : Bool
  box_x : Option FormVal
  box_y : Option FormVal
  box_width : Option FormVal
  box_height : Option FormVal
  imageBytes : List ℕ
  pilDetect : List ℕ → PILOutcome
  cropOutcome : Option Unit
  searcher : LambdaFurnitureSearcher
  clipResult : Except EmbedError (List ℚ)

/-- The allowed upload formats of both routes. -/
def allowedMimes : List String := ["image/jpeg", "image/png", "image/webp"]

/-- `routes.py: search_furniture`, returning the response together with
whether `search_service.search` was invoked (the embedding endpoint is only
ever called from inside it on this route).  The source's
`if not cropped_img` branch can never fire — PIL images define no `__bool__`
— and is omitted.  A failure in the crop/letterbox block is caught by the
outer `except` as a 500. -/
def search_furniture (req : SearchRequest) : HttpResponse × Bool :=
  if req.hasImageKey = false then (.badRequest "No image uploaded", false)
  else if req.fileSelected = false then (.badRequest "No file selected", false)
  else
    match parseWithDefault req.box_x, parseWithDefault req.box_y,
          parseRequired req.box_width, parseRequired req.box_height with
    | some _, some _, some box_width, some box_height =>
      if box_width ≤ 0 ∨ box_height ≤ 0 then
        (.badRequest "Crop dimensions must be positive", false)
      else if req.imageBytes.isEmpty then (.badRequest "Empty file", false)
      else if (allowedMimes.contains
          (detect_image_mime_type req.imageBytes (req.pilDetect req.imageBytes))) = false then
        (.badRequest "Unsupported file type", false)
      else
        match req.cropOutcome with
        | none => (.serverError "Failed to search furniture", false)
        | some _ => (routeSearchDispatch req.searcher req.clipResult, true)
    | _, _, _, _ => (.badRequest "Invalid crop box values", false)

/-- The crop box of a request is invalid in the sense of claim C5: width or
height missing or non-numeric, or parsed non-positive. -/
def cropBoxInvalid (req : SearchRequest) : Bool :=
  match parseRequired req.box_width, parseRequired req.box_height with
  | some box_width, some box_height => decide (box_width ≤ 0 ∨ box_height ≤ 0)
  | _, _ => true

/-- Whether a response is a 400. -/
def isBadRequest : HttpResponse → Bool
  | .badRequest _ => true
  | _ => false

/-- One `/api/redesign` request with the behaviour of its external calls:
`gen bytes prompt` is what `ai_service.generate_image(bytes, prompt)` returns
for that input (it never raises, see `generate_image`). -/
structure RedesignRequest where
  filePresent : Bool
  fileSelected : Bool
  fileBytes : List ℕ
  pilDetect : List ℕ → PILOutcome
  style : Option String
  room_type : Option String
  additional_instructions : Option String
  empty_then_generate : Option String
  gen : List ℕ → String → Option (List ℕ)

/-- Python `a or b` for an optional string: the default replaces both an
absent field and an empty string. -/
def pyOr (v : Option String) (dflt : String) : String :=
  match v with
  | none => dflt
  | some s => if s = "" then dflt else s

/-- `(request.form.get('style') or 'Nordic').strip()`. -/
def redesignStyle (req : RedesignRequest) : String := pyStrip (pyOr req.style "Nordic")

/-- `(request.form.get('room_type') or 'Living Room').strip()`. -/
def redesignRoomType (req : RedesignRequest) : String :=
  pyStrip (pyOr req.room_type "Living Room")

/-- `request.form.get('additional_instructions', '').strip()`. -/
def redesignAdditional (req : RedesignRequest) : String :=
  pyStrip (req.additional_instructions.getD "")

/-- `request.form.get('empty_then_generate', 'false').lower() in
('true', '1', 'yes')`. -/
def redesignEmptyFlag (req : RedesignRequest) : Bool :=
  ["true", "1", "yes"].contains (pyLower (req.empty_then_generate.getD "false"))

/-- The design prompt the route passes to the furnishing call. -/
def redesignDesignPrompt (req : RedesignRequest) : String :=
  get_design_prompt (redesignStyle req) (redesignRoomType req) (redesignAdditional req)

/-- Responses of the redesign route: 400s, 500s, or the JSON with the three
data URIs. -/
inductive RedesignResponse
  | badRequest (msg : String)
  | serverError (msg : String)
  | success (original_image empty_image final_image : Option (List ℕ))
deriving DecidableEq

/-- The upload validation prefix of the redesign route succeeds: a non-empty
file is present, selected, and detected as JPEG/PNG/WebP. -/
def passesIntake (req : RedesignRequest) : Bool :=
  req.filePresent && req.fileSelected && !req.fileBytes.isEmpty &&
  allowedMimes.contains
    (detect_image_mime_type req.fileBytes (req.pilDetect req.fileBytes))

/-- `routes.py: redesign_image`, returning the response and how many
`generate_image` calls were made.  `if not empty_bytes` / `if not final_bytes`
treat both `None` and an empty byte string as failure. -/
def redesign_image (req : RedesignRequest) : RedesignResponse × ℕ :=
  if req.filePresent = false then (.badRequest "No file uploaded", 0)
  else if req.fileSelected = false then (.badRequest "No file selected", 0)
  else if req.fileBytes.isEmpty then (.badRequest "Empty file", 0)
  else if (allowedMimes.contains
      (detect_image_mime_type req.fileBytes (req.pilDetect req.fileBytes))) = false then
    (.badRequest "Unsupported file type", 0)
  else if redesignEmptyFlag req then
    match req.gen req.fileBytes get_empty_room_prompt with
    | none => (.serverError "Failed to empty room", 1)
    | some empty_bytes =>
      if empty_bytes.isEmpty then (.serverError "Failed to empty room", 1)
      else
        match req.gen empty_bytes (redesignDesignPrompt req) with
        | none => (.serverError "Failed to design room", 2)
        | some final_bytes =>
          if final_bytes.isEmpty then (.serverError "Failed to design room", 2)
          else
            (.success (process_image_for_frontend req.fileBytes (req.pilDetect req.fileBytes))
                      (process_image_for_frontend empty_bytes (req.pilDetect empty_bytes))
                      (process_image_for_frontend final_bytes (req.pilDetect final_bytes)), 2)
  else
    match req.gen req.fileBytes (redesignDesignPrompt req) with
    | none => (.serverError "Failed to design room", 1)
    | some final_bytes =>
      if final_bytes.isEmpty then (.serverError "Failed to design room", 1)
      else
        (.success (process_image_for_frontend req.fileBytes (req.pilDetect req.fileBytes))
                  (process_image_for_frontend req.fileBytes (req.pilDetect req.fileBytes))
                  (process_image_for_frontend final_bytes (req.pilDetect final_bytes)), 1)

/-! ### Concrete instances used by witnesses and counterexamples -/

/-- A one-item loaded database: embedding row with id `"1"`, product with a
title. -/
def dbChair : SearchDB := ⟨["1"], [("1", [("title", "Chair")])], [[0]]⟩

/-- A one-item database whose product record has no `title` column. -/
def dbNoTitle : SearchDB := ⟨["7"], [("7", [("source", "IKEA")])], [[0]]⟩

/-- A redesign request that passes intake, asks for empty-then-generate, and
whose generation calls all fail. -/
def reqRedesignW : RedesignRequest :=
  { filePresent := true
    fileSelected := true
    fileBytes := [137]
    pilDetect := fun _ => .opened (some "PNG")
    style := none
    room_type := none
    additional_instructions := none
    empty_then_generate := some "true"
    gen := fun _ _ => none }

/-- A search request whose crop box has zero width. -/
def reqSearchW : SearchRequest :=
  { hasImageKey := true
    fileSelected := true
    box_x := none
    box_y := none
    box_width := some (.num 0)
    box_height := some (.num 5)
    imageBytes := [1]
    pilDetect := fun _ => .opened (some "PNG")
    cropOutcome := some ()
    searcher := ⟨some dbChair, some ()⟩
    clipResult := .ok [0] }

/-- Gemini response parts whose first inline payload sits behind a data-less
part. -/
def partsW : List ResponsePart := [⟨none⟩, ⟨some [9, 9]⟩, ⟨some [1]⟩]

/-- A Lambda payload with the embedding wrapped in a second `embedding` dict:
`{'embedding': {'embedding': [0.0] * 512}}`. -/
def payloadDictWrapped : Json :=
  .obj [("embedding", .obj [("embedding", .arr (List.replicate 512 (.num 0)))])]

/-- The similarity score of the zero query vector against the zero dataset
row, kept as its defining expression (rational arithmetic is opaque to
definitional reduction in this development). -/
def scoreZeroRow : ℚ := dot (l2Normalize [0]) (l2Normalize [0])

/-- The single result `search` produces from `dbChair`. -/
def resultChair : SearchResult :=
  { score := scoreZeroRow, title := "Chair", price := "N/A", source := ""
    image_url := "", search_query := "Chair " }

/-- The single result `search` produces from `dbNoTitle`. -/
def resultNoTitle : SearchResult :=
  { score := scoreZeroRow, title := "Unknown Item", price := "N/A", source := "IKEA"
    image_url := "", search_query := " IKEA" }

/-- The `payload["embedding"]` access guarded by
`isinstance(payload, dict) and "embedding" in payload`. -/
def payloadHasEmbedding : Json → Option Json
  | .obj kvs => kvs.lookup "embedding"
  | _ => none

/-- A well-shaped Lambda payload: `{'embedding': [1.0] * 512}`. -/
def payloadPlain : Json := .obj [("embedding", .arr (List.replicate 512 (Json.num 1)))]

/-! ### Claim theorems -/

/-- C8: for byte sequences Pillow decodes as JPEG, PNG or WebP,
`detect_image_mime_type` returns the matching MIME type; for the empty byte
sequence, and whenever Pillow cannot decode the bytes, it returns the
fallback `'image/png'`.  The function is total, so it never raises. -/
theorem c8_detect_mime (image_bytes : List ℕ) (pil : PILOutcome) :
    (image_bytes ≠ [] → pil = .opened (some "JPEG") →
      detect_image_mime_type image_bytes pil = "image/jpeg") ∧
    (image_bytes ≠ [] → pil = .opened (some "PNG") →
      detect_image_mime_type image_bytes pil = "image/png") ∧
    (image_bytes ≠ [] → pil = .opened (some "WEBP") →
      detect_image_mime_type image_bytes pil = "image/webp") ∧
    (image_bytes = [] → detect_image_mime_type image_bytes pil = "image/png") ∧
    (pil = .failure → detect_image_mime_type image_bytes pil = "image/png") := by
  refine ⟨fun h hp => ?_, fun h hp => ?_, fun h hp => ?_, fun h => ?_, fun hp => ?_⟩
  · subst hp
    unfold detect_image_mime_type
    rw [if_neg (by simp [h])]
    decide
  · subst hp
    unfold detect_image_mime_type
    rw [if_neg (by simp [h])]
    decide
  · subst hp
    unfold detect_image_mime_type
    rw [if_neg (by simp [h])]
    decide
  · subst h
    rfl
  · subst hp
    unfold detect_image_mime_type
    by_cases hb : image_bytes.isEmpty = true
    · rw [if_pos hb]
    · rw [if_neg hb]

/-- C8 witness. -/
theorem c8_witness :
    detect_image_mime_type [255, 216] (.opened (some "JPEG")) = "image/jpeg" :=
  (c8_detect_mime [255, 216] (.opened (some "JPEG"))).1 (by decide) rfl

/-- C10: an absent or empty `style` form field defaults to `'Nordic'` (and the
design prompt is then built with `'Nordic'`), an absent or empty `room_type`
defaults to `'Living Room'`, while any non-empty value — including
whitespace-only strings, which strip to the empty string — is only stripped,
never defaulted. -/
theorem c10_redesign_defaults (req : RedesignRequest) :
    ((req.style = none ∨ req.style = some "") →
      redesignStyle req = "Nordic" ∧
      redesignDesignPrompt req =
        get_design_prompt "Nordic" (redesignRoomType req) (redesignAdditional req)) ∧
    ((req.room_type = none ∨ req.room_type = some "") →
      redesignRoomType req = "Living Room") ∧
    (∀ s, req.style = some s → s ≠ "" → redesignStyle req = pyStrip s) ∧
    (∀ s, req.room_type = some s → s ≠ "" → redesignRoomType req = pyStrip s) := by
  refine ⟨fun h => ?_, fun h => ?_, fun s hs hne => ?_, fun s hs hne => ?_⟩
  · have hstyle : redesignStyle req = "Nordic" := by
      show pyStrip (pyOr req.style "Nordic") = "Nordic"
      rcases h with h | h <;> rw [h] <;> decide
    exact ⟨hstyle, by unfold redesignDesignPrompt; rw [hstyle]⟩
  · show pyStrip (pyOr req.room_type "Living Room") = "Living Room"
    rcases h with h | h <;> rw [h] <;> decide
  · show pyStrip (pyOr req.style "Nordic") = pyStrip s
    rw [hs]
    simp [pyOr, hne]
  · show pyStrip (pyOr req.room_type "Living Room") = pyStrip s
    rw [hs]
    simp [pyOr, hne]

/-- C10 witness. -/
theorem c10_witness :
    redesignStyle reqRedesignW = "Nordic" ∧
    redesignDesignPrompt reqRedesignW =
      get_design_prompt "Nordic" (redesignRoomType reqRedesignW)
        (redesignAdditional reqRedesignW) :=
  (c10_redesign_defaults reqRedesignW).1 (Or.inl rfl)

/-- C6: a redesign request that passes upload validation, asks for
empty-then-generate, and whose first (empty-room) generation call returns
`None`, ends with the 500 `'Failed to empty room'` — the error names the
emptying step, exactly one generation call was made (so the furnishing call
never happens), and the response carries no image at all. -/
theorem c6_empty_step_failure (req : RedesignRequest)
    (hintake : passesIntake req = true)
    (hflag : redesignEmptyFlag req = true)
    (hfail : req.gen req.fileBytes get_empty_room_prompt = none) :
    redesign_image req = (.serverError "Failed to empty room", 1) := by
  simp only [passesIntake, Bool.and_eq_true, Bool.not_eq_true'] at hintake
  obtain ⟨⟨⟨h1, h2⟩, h3⟩, h4⟩ := hintake
  simp [redesign_image, h1, h2, h3, h4, hflag, hfail]
  simpa using h4

/-- C6 witness. -/
theorem c6_witness :
    redesign_image reqRedesignW = (.serverError "Failed to empty room", 1) :=
  c6_empty_step_failure reqRedesignW (by decide) (by decide) rfl

/-- `find?` returns the element at the first index satisfying the predicate.
-/
theorem find?_of_first {α : Type} (p : α → Bool) :
    ∀ (l : List α) (i : ℕ) (hi : i < l.length),
      p (l.get ⟨i, hi⟩) = true →
      (∀ j (hj : j < l.length), j < i → p (l.get ⟨j, hj⟩) = false) →
      l.find? p = some (l.get ⟨i, hi⟩) := by
  intro l
  induction l with
  | nil => intro i hi _ _; simp at hi
  | cons a tl ih =>
    intro i hi hp hb
    cases i with
    | zero =>
      rw [List.find?_cons_of_pos _ (by simpa using hp)]
      simp
    | succ i =>
      have ha : p a = false := by simpa using hb 0 (by simp) (Nat.succ_pos i)
      rw [List.find?_cons_of_neg _ (by simp [ha])]
      have hrec := ih i (by simpa using hi) (by simpa using hp)
        (fun j hj hji => by simpa using hb (j + 1) (by simpa using hj) (by omega))
      simpa using hrec

/-- C9: `generate_image` is total over its outcomes: when the call raised,
or the response has no candidates, or no part carries inline data, the result
is `None`; otherwise it is exactly the data of the first part that carries
inline data.  Being a total function into `Option`, it never raises. -/
theorem c9_generate_image_total (outcome : GeminiOutcome) :
    (outcome = .raises → generate_image outcome = none) ∧
    (outcome = .returns [] → generate_image outcome = none) ∧
    (∀ candidates parts, outcome = .returns candidates →
      candidates.head? = some parts →
      ((∀ part ∈ parts, part.inline_data = none) → generate_image outcome = none) ∧
      (∀ i (hi : i < parts.length),
        (parts.get ⟨i, hi⟩).inline_data.isSome = true →
        (∀ j (hj : j < parts.length), j < i → (parts.get ⟨j, hj⟩).inline_data = none) →
        generate_image outcome = (parts.get ⟨i, hi⟩).inline_data)) := by
  refine ⟨fun h => by rw [h]; rfl, fun h => by rw [h]; rfl, ?_⟩
  intro cands parts hc hh
  subst hc
  constructor
  · intro hall
    show (match cands.head? with
          | none => none
          | some parts => (parts.find? (fun p => p.inline_data.isSome)).bind
              (·.inline_data)) = none
    rw [hh]
    have hfind : parts.find? (fun p => p.inline_data.isSome) = none := by
      rw [List.find?_eq_none]
      intro x hx
      simp [hall x hx]
    simp [hfind]
  · intro i hi hp hb
    show (match cands.head? with
          | none => none
          | some parts => (parts.find? (fun p => p.inline_data.isSome)).bind
              (·.inline_data)) = (parts.get ⟨i, hi⟩).inline_data
    rw [hh]
    have hfind := find?_of_first (fun p => p.inline_data.isSome) parts i hi hp
      (fun j hj hji => by simpa using hb j hj hji)
    simp [hfind]

/-- C9 witness. -/
theorem c9_witness : generate_image (.returns [partsW]) = some [9, 9] := by
  have h := ((c9_generate_image_total (.returns [partsW])).2.2 [partsW] partsW rfl
      rfl).2 1 (by decide) (by decide)
    (fun j hj hji => by
      have hj0 : j = 0 := by omega
      subst hj0
      rfl)
  exact h

/-- C5: whenever the crop box is invalid — width or height missing,
non-numeric, or non-positive — the search-furniture route answers with a 400
and never invokes the search service (and hence never the embedding
endpoint, which this route only reaches through the search service). -/
theorem c5_invalid_crop_rejected (req : SearchRequest)
    (h : cropBoxInvalid req = true) :
    isBadRequest (search_furniture req).1 = true ∧ (search_furniture req).2 = false := by
  unfold cropBoxInvalid at h
  unfold search_furniture
  cases h1 : req.hasImageKey
  · simp [isBadRequest]
  · cases h2 : req.fileSelected
    · simp [isBadRequest]
    · rcases hbw : parseRequired req.box_width with _ | bw
      · rcases hbx : parseWithDefault req.box_x with _ | bx <;>
          rcases hby : parseWithDefault req.box_y with _ | by' <;>
            simp [hbw, hbx, hby, isBadRequest]
      · rcases hbh : parseRequired req.box_height with _ | bh
        · rcases hbx : parseWithDefault req.box_x with _ | bx <;>
            rcases hby : parseWithDefault req.box_y with _ | by' <;>
              simp [hbw, hbh, hbx, hby, isBadRequest]
        · simp only [hbw, hbh] at h
          rcases hbx : parseWithDefault req.box_x with _ | bx <;>
            rcases hby : parseWithDefault req.box_y with _ | by' <;>
              simp [hbw, hbh, hbx, hby, isBadRequest, of_decide_eq_true h]

/-- C5 witness. -/
theorem c5_witness :
    isBadRequest (search_furniture reqSearchW).1 = true ∧
    (search_furniture reqSearchW).2 = false :=
  c5_invalid_crop_rejected reqSearchW (by decide)

/-- C1: the wired-in searcher raises exactly when the product database or the
embedding client failed to initialize — the route turns that `RuntimeError`
into the 503 — and for initialized services it never raises: in particular
any failure of the embedding call yields the empty result list.  This holds
for every query and every `top_k`. -/
theorem c1_search_unavailable_asymmetry (s : LambdaFurnitureSearcher)
    (clipResult : Except EmbedError (List ℚ)) (top_k : ℕ) :
    (s.df_data = none →
      s.search clipResult top_k = .error .datasetNotLoaded ∧
      routeSearchDispatch s clipResult = .unavailable) ∧
    (s.df_data ≠ none → s.clip_service = none →
      s.search clipResult top_k = .error .clipNotInitialized ∧
      routeSearchDispatch s clipResult = .unavailable) ∧
    (s.df_data ≠ none → s.clip_service ≠ none →
      (s.search clipResult top_k).isOk = true) ∧
    (s.df_data ≠ none → s.clip_service ≠ none → ∀ e, clipResult = .error e →
      s.search clipResult top_k = .ok []) := by
  obtain ⟨df, clip⟩ := s
  cases df with
  | none =>
    exact ⟨fun _ => ⟨rfl, rfl⟩, fun h => absurd rfl h, fun h => absurd rfl h,
           fun h => absurd rfl h⟩
  | some db =>
    cases clip with
    | none =>
      exact ⟨fun h => (nomatch h), fun _ _ => ⟨rfl, rfl⟩, fun _ h => absurd rfl h,
             fun _ h => absurd rfl h⟩
    | some u =>
      refine ⟨fun h => (nomatch h), fun _ h => (nomatch h), fun _ _ => ?_,
              fun _ _ e he => ?_⟩
      · cases clipResult <;> rfl
      · subst he
        rfl

/-- C1 witness. -/
theorem c1_witness :
    LambdaFurnitureSearcher.search ⟨some dbChair, some ()⟩ (.error .transport) 3 =
      .ok [] :=
  (c1_search_unavailable_asymmetry ⟨some dbChair, some ()⟩ (.error .transport) 3).2.2.2
    (fun h => nomatch h) (fun h => nomatch h) .transport rfl

/-- The argsort of a score list is sorted by the scores it points at. -/
theorem argsortAsc_sorted (scores : List ℚ) :
    List.Sorted (idxLe scores) (argsortAsc scores) :=
  List.sorted_insertionSort _ _

/-- The selected top indices point at non-increasing scores. -/
theorem topIndices_pairwise (scores : List ℚ) (k : ℕ) :
    (topIndices scores k).Pairwise (fun i j => scores.getD j 0 ≤ scores.getD i 0) := by
  have h1 : (argsortAsc scores).Pairwise (idxLe scores) := argsortAsc_sorted scores
  have h2 : (argsortAsc scores).reverse.Pairwise (fun i j => idxLe scores j i) :=
    List.pairwise_reverse.mpr h1
  exact List.Pairwise.sublist (List.take_sublist _ _) h2

/-- A result built at an index carries the score at that index. -/
theorem resultAt_score (db : SearchDB) (scores : List ℚ) (idx : ℕ)
    (r : SearchResult) (h : resultAt db scores idx = some r) :
    r.score = scores.getD idx 0 := by
  unfold resultAt at h
  split at h
  · exact absurd h (by simp)
  · split at h
    · exact absurd h (by simp)
    · split at h
      · exact absurd h (by simp)
      · injection h with h'
        rw [← h']

/-- `filterMap` preserves pairwise relations along the mapping. -/
theorem pairwise_filterMap_of {α β : Type} {R : α → α → Prop} {S : β → β → Prop}
    (f : α → Option β)
    (hf : ∀ a a' b b', R a a' → f a = some b → f a' = some b' → S b b') :
    ∀ {l : List α}, l.Pairwise R → (l.filterMap f).Pairwise S := by
  intro l hl
  induction hl with
  | nil => simp
  | @cons a l' hhead _ ih =>
    cases hfa : f a with
    | none => simpa [List.filterMap_cons, hfa] using ih
    | some b =>
      rw [List.filterMap_cons_some hfa]
      refine List.Pairwise.cons (fun b' hb' => ?_) ih
      obtain ⟨a', ha', hfa'⟩ := List.mem_filterMap.mp hb'
      exact hf a a' b b' (hhead a' ha') hfa hfa'

/-- C2: whenever `search` returns a result list, the list has at most `top_k`
entries and consecutive scores are non-increasing (results are ordered by
descending similarity). -/
theorem c2_topk_and_descending (s : LambdaFurnitureSearcher)
    (clipResult : Except EmbedError (List ℚ)) (k : ℕ) (results : List SearchResult)
    (h : s.search clipResult k = .ok results) :
    results.length ≤ k ∧ List.Chain' (fun r r' => r'.score ≤ r.score) results := by
  obtain ⟨df, clip⟩ := s
  cases df with
  | none => exact absurd h (by simp [LambdaFurnitureSearcher.search])
  | some db =>
    cases clip with
    | none => exact absurd h (by simp [LambdaFurnitureSearcher.search])
    | some u =>
      cases clipResult with
      | error e =>
        have h' : Except.ok (ε := SearchError) ([] : List SearchResult) = .ok results := h
        injection h' with h''
        rw [← h'']
        exact ⟨Nat.zero_le _, List.chain'_nil⟩
      | ok emb =>
        have h' : Except.ok (ε := SearchError)
            ((topIndices (searchScores db emb) k).filterMap
              (resultAt db (searchScores db emb))) = .ok results := h
        injection h' with h''
        rw [← h'']
        constructor
        · calc ((topIndices (searchScores db emb) k).filterMap
                  (resultAt db (searchScores db emb))).length
              ≤ (topIndices (searchScores db emb) k).length :=
                List.length_filterMap_le _ _
            _ ≤ k := by
                rw [topIndices, List.length_take]
                exact min_le_left _ _
        · refine List.Pairwise.chain' ?_
          refine pairwise_filterMap_of _ ?_ (topIndices_pairwise (searchScores db emb) k)
          intro i j r r' hij hri hrj
          rw [resultAt_score _ _ _ _ hri, resultAt_score _ _ _ _ hrj]
          exact hij

/-- C2 witness. -/
theorem c2_witness :
    LambdaFurnitureSearcher.search ⟨some dbChair, some ()⟩ (.ok [0]) 4 =
      .ok [resultChair] ∧
    ([resultChair].length ≤ 4 ∧
      List.Chain' (fun r r' => r'.score ≤ r.score) [resultChair]) :=
  ⟨rfl, c2_topk_and_descending ⟨some dbChair, some ()⟩ (.ok [0]) 4 [resultChair] rfl⟩

/-- C7 (amended): every returned result has
`search_query = "{stored title} {stored source}"` with empty-string defaults;
this equals `"{title} {source}"` of the result's own fields whenever the
catalog item carries a title, while for items without a title the `title`
field reads `'Unknown Item'` but `search_query` starts with the empty title. -/
theorem c7_search_query_synthesis (s : LambdaFurnitureSearcher)
    (clipResult : Except EmbedError (List ℚ)) (k : ℕ) (results : List SearchResult)
    (h : s.search clipResult k = .ok results) :
    ∀ r ∈ results,
      r.search_query = r.title ++ " " ++ r.source ∨
      (r.title = "Unknown Item" ∧ r.search_query = " " ++ r.source) := by
  obtain ⟨df, clip⟩ := s
  cases df with
  | none => exact absurd h (by simp [LambdaFurnitureSearcher.search])
  | some db =>
    cases clip with
    | none => exact absurd h (by simp [LambdaFurnitureSearcher.search])
    | some u =>
      cases clipResult with
      | error e =>
        have h' : Except.ok (ε := SearchError) ([] : List SearchResult) = .ok results := h
        injection h' with h''
        rw [← h'']
        intro r hr
        exact absurd hr (by simp)
      | ok emb =>
        have h' : Except.ok (ε := SearchError)
            ((topIndices (searchScores db emb) k).filterMap
              (resultAt db (searchScores db emb))) = .ok results := h
        injection h' with h''
        rw [← h'']
        intro r hr
        obtain ⟨idx, _, hres⟩ := List.mem_filterMap.mp hr
        unfold resultAt at hres
        split at hres
        · exact absurd hres (by simp)
        · split at hres
          · exact absurd hres (by simp)
          · split at hres
            · exact absurd hres (by simp)
            · injection hres with hres'
              rw [← hres']
              rename_i item _ _
              rcases h4 : item.lookup "title" with _ | t
              · right
                refine ⟨?_, ?_⟩
                · show dictGet item "title" "Unknown Item" = "Unknown Item"
                  simp [dictGet, h4]
                · show dictGet item "title" "" ++ " " ++ dictGet item "source" "" =
                    " " ++ dictGet item "source" ""
                  simp [dictGet, h4]
              · left
                show dictGet item "title" "" ++ " " ++ dictGet item "source" "" =
                  dictGet item "title" "Unknown Item" ++ " " ++ dictGet item "source" ""
                simp [dictGet, h4]

/-- C7 counterexample: on a catalog item without a stored title, the claimed
equality `search_query = "{title} {source}"` fails — the result's title reads
`'Unknown Item'` while `search_query` is `' IKEA'`. -/
theorem c7_counterexample :
    LambdaFurnitureSearcher.search ⟨some dbNoTitle, some ()⟩ (.ok [0]) 4 =
      .ok [resultNoTitle] ∧
    resultNoTitle.search_query ≠ resultNoTitle.title ++ " " ++ resultNoTitle.source :=
  ⟨rfl, by decide⟩

/-- C7 witness. -/
theorem c7_witness :
    resultChair.search_query = resultChair.title ++ " " ++ resultChair.source ∨
    (resultChair.title = "Unknown Item" ∧
      resultChair.search_query = " " ++ resultChair.source) :=
  c7_search_query_synthesis ⟨some dbChair, some ()⟩ (.ok [0]) 4 [resultChair] rfl
    resultChair (by simp)

/-- A successful element-wise `float` conversion preserves length. -/
theorem floatList_length : ∀ (xs : List Json) (qs : List ℚ),
    floatList xs = some qs → qs.length = xs.length := by
  intro xs
  induction xs with
  | nil =>
    intro qs h
    injection h with h'
    rw [← h']
    rfl
  | cons x xs ih =>
    intro qs h
    unfold floatList at h
    split at h
    · rename_i q qs' hq hqs
      injection h with h'
      rw [← h']
      simp [ih qs' hqs]
    · exact absurd h (by simp)

/-- C4 (amended): `get_image_embedding` raises the configuration error when no
URL is configured; re-raises transport errors; raises the shape error when the
payload is not a dict with an `embedding` key, or when — after unwrapping a
possible single-element nested list and extracting from a possible
`{'embedding': ...}` dict wrapper — the value is not a list of length exactly
512; and on a 512-element list of convertible values returns exactly those 512
floats. -/
theorem c4_embedding_client_contract (svc : LambdaCLIPService)
    (outcome : TransportOutcome) :
    (urlTruthy svc.url = false →
      svc.get_image_embedding outcome = .error .notConfigured) ∧
    (urlTruthy svc.url = true → outcome = .failure →
      svc.get_image_embedding outcome = .error .transport) ∧
    (urlTruthy svc.url = true → ∀ payload, outcome = .success payload →
      payloadHasEmbedding payload = none →
      svc.get_image_embedding outcome = .error .badShape) ∧
    (urlTruthy svc.url = true → ∀ payload emb, outcome = .success payload →
      payloadHasEmbedding payload = some emb →
      (∀ xs, unwrapDict (unwrapNested emb) = Json.arr xs → xs.length ≠ 512) →
      svc.get_image_embedding outcome = .error .badShape) ∧
    (urlTruthy svc.url = true → ∀ payload emb xs qs, outcome = .success payload →
      payloadHasEmbedding payload = some emb →
      unwrapDict (unwrapNested emb) = Json.arr xs → xs.length = 512 →
      floatList xs = some qs →
      svc.get_image_embedding outcome = .ok qs ∧ qs.length = 512) := by
  refine ⟨fun hu => ?_, fun hu ho => ?_, fun hu p ho hnone => ?_,
          fun hu p emb ho hemb hnot => ?_, fun hu p emb xs qs ho hemb harr hlen hfl => ?_⟩
  · unfold LambdaCLIPService.get_image_embedding
    rw [if_pos hu]
  · subst ho
    unfold LambdaCLIPService.get_image_embedding
    rw [if_neg (by simp [hu])]
  · subst ho
    unfold LambdaCLIPService.get_image_embedding
    rw [if_neg (by simp [hu])]
    cases p with
    | obj kvs =>
      simp only [payloadHasEmbedding] at hnone
      simp [hnone]
    | null => rfl
    | bool b => rfl
    | num q => rfl
    | str s => rfl
    | arr items => rfl
  · subst ho
    cases p with
    | obj kvs =>
      simp only [payloadHasEmbedding] at hemb
      unfold LambdaCLIPService.get_image_embedding
      rw [if_neg (by simp [hu])]
      simp only [hemb]
      split
      · rename_i xs2 hxs
        rw [if_neg (hnot xs2 hxs)]
      · rfl
    | null => exact absurd hemb (by simp [payloadHasEmbedding])
    | bool b => exact absurd hemb (by simp [payloadHasEmbedding])
    | num q => exact absurd hemb (by simp [payloadHasEmbedding])
    | str s => exact absurd hemb (by simp [payloadHasEmbedding])
    | arr items => exact absurd hemb (by simp [payloadHasEmbedding])
  · subst ho
    cases p with
    | obj kvs =>
      simp only [payloadHasEmbedding] at hemb
      refine ⟨?_, floatList_length xs qs hfl ▸ hlen ▸ rfl⟩
      unfold LambdaCLIPService.get_image_embedding
      rw [if_neg (by simp [hu])]
      simp only [hemb, harr]
      rw [if_pos hlen, hfl]
    | null => exact absurd hemb (by simp [payloadHasEmbedding])
    | bool b => exact absurd hemb (by simp [payloadHasEmbedding])
    | num q => exact absurd hemb (by simp [payloadHasEmbedding])
    | str s => exact absurd hemb (by simp [payloadHasEmbedding])
    | arr items => exact absurd hemb (by simp [payloadHasEmbedding])

set_option maxRecDepth 8000

/-- C4 counterexample: the wired-in client also unwraps a dict-wrapped
embedding `{'embedding': {'embedding': [...512...]}}` and succeeds, where the
claim requires a shape error (the value after the single-element-list unwrap
is a dict, not a 512-list). -/
theorem c4_counterexample :
    LambdaCLIPService.get_image_embedding ⟨some "https://lambda.example"⟩
        (.success payloadDictWrapped) = .ok (List.replicate 512 (0 : ℚ)) ∧
    LambdaCLIPService.get_image_embedding ⟨some "https://lambda.example"⟩
        (.success payloadDictWrapped) ≠ .error .badShape := by
  have h1 : LambdaCLIPService.get_image_embedding ⟨some "https://lambda.example"⟩
      (.success payloadDictWrapped) = .ok (List.replicate 512 (0 : ℚ)) := rfl
  refine ⟨h1, fun hc => ?_⟩
  rw [h1] at hc
  exact Except.noConfusion hc

/-- C4 witness. -/
theorem c4_witness :
    LambdaCLIPService.get_image_embedding ⟨some "https://lambda.example"⟩
        (.success payloadPlain) = .ok (List.replicate 512 (1 : ℚ)) ∧
    (List.replicate 512 (1 : ℚ)).length = 512 :=
  (c4_embedding_client_contract ⟨some "https://lambda.example"⟩
      (.success payloadPlain)).2.2.2.2 rfl payloadPlain
    (.arr (List.replicate 512 (Json.num 1))) (List.replicate 512 (Json.num 1))
    (List.replicate 512 (1 : ℚ)) rfl rfl rfl rfl rfl

set_option maxRecDepth 512

/-- Decoding a base64 digit inverts encoding it. -/
theorem b64ValOf_b64CodeOf (n : ℕ) (h : n < 64) : b64ValOf (b64CodeOf n) = some n := by
  unfold b64CodeOf b64ValOf
  split_ifs <;> simp_all <;> omega

/-- No base64 digit is the padding character (code 61). -/
theorem b64CodeOf_ne_61 (n : ℕ) : b64CodeOf n ≠ 61 := by
  unfold b64CodeOf
  split_ifs <;> omega

/-- Decoding a base64 encoding recovers the original bytes. -/
theorem b64_roundtrip : ∀ bs : List ℕ, (∀ b ∈ bs, b < 256) →
    b64Decode (b64Encode bs) = some bs
  | [] => fun _ => rfl
  | [a] => fun h => by
    have ha : a < 256 := h a (by simp)
    have e1 := b64ValOf_b64CodeOf (a / 4) (by omega)
    have e2 := b64ValOf_b64CodeOf (a % 4 * 16) (by omega)
    show b64Decode [b64CodeOf (a / 4), b64CodeOf (a % 4 * 16), 61, 61] = some [a]
    unfold b64Decode
    simp only [e1, e2, and_self, eq_self_iff_true, if_true, Option.some.injEq,
      List.cons.injEq, and_true]
    omega
  | [a, b] => fun h => by
    have ha : a < 256 := h a (by simp)
    have hb : b < 256 := h b (by simp)
    have e1 := b64ValOf_b64CodeOf (a / 4) (by omega)
    have e2 := b64ValOf_b64CodeOf (a % 4 * 16 + b / 16) (by omega)
    have e3 := b64ValOf_b64CodeOf (b % 16 * 4) (by omega)
    show b64Decode [b64CodeOf (a / 4), b64CodeOf (a % 4 * 16 + b / 16),
      b64CodeOf (b % 16 * 4), 61] = some [a, b]
    unfold b64Decode
    simp only [e1, e2, e3, if_neg (b64CodeOf_ne_61 (b % 16 * 4)), eq_self_iff_true,
      if_true, Option.some.injEq, List.cons.injEq, and_true]
    constructor
    · omega
    · omega
  | a :: b :: c :: rest => fun h => by
    have ha : a < 256 := h a (by simp)
    have hb : b < 256 := h b (by simp)
    have hc : c < 256 := h c (by simp)
    have ih := b64_roundtrip rest (fun x hx => h x (by simp [hx]))
    have e1 := b64ValOf_b64CodeOf (a / 4) (by omega)
    have e2 := b64ValOf_b64CodeOf (a % 4 * 16 + b / 16) (by omega)
    have e3 := b64ValOf_b64CodeOf (b % 16 * 4 + c / 64) (by omega)
    have e4 := b64ValOf_b64CodeOf (c % 64) (by omega)
    show b64Decode (b64CodeOf (a / 4) :: b64CodeOf (a % 4 * 16 + b / 16) ::
      b64CodeOf (b % 16 * 4 + c / 64) :: b64CodeOf (c % 64) :: b64Encode rest) =
      some (a :: b :: c :: rest)
    unfold b64Decode
    simp only [e1, e2, e3, e4, if_neg (b64CodeOf_ne_61 (b % 16 * 4 + c / 64)),
      if_neg (b64CodeOf_ne_61 (c % 64)), ih, Option.some.injEq, List.cons.injEq,
      and_true]
    refine ⟨by omega, by omega, by omega⟩

/-- No base64 digit is the comma (44) ending the base64 marker. -/
theorem b64CodeOf_ne_44 (n : ℕ) : b64CodeOf n ≠ 44 := by
  unfold b64CodeOf
  split_ifs <;> omega

/-- No character of a base64 encoding is a comma. -/
theorem b64Encode_ne_44 : ∀ bs : List ℕ, ∀ x ∈ b64Encode bs, x ≠ 44
  | [] => by simp [b64Encode]
  | [a] => by
    intro x hx
    simp only [b64Encode, List.mem_cons, List.not_mem_nil, or_false] at hx
    rcases hx with h | h | h | h
    · subst h; exact b64CodeOf_ne_44 _
    · subst h; exact b64CodeOf_ne_44 _
    · subst h; decide
    · subst h; decide
  | [a, b] => by
    intro x hx
    simp only [b64Encode, List.mem_cons, List.not_mem_nil, or_false] at hx
    rcases hx with h | h | h | h
    · subst h; exact b64CodeOf_ne_44 _
    · subst h; exact b64CodeOf_ne_44 _
    · subst h; exact b64CodeOf_ne_44 _
    · subst h; decide
  | a :: b :: c :: rest => by
    intro x hx
    simp only [b64Encode, List.mem_cons] at hx
    rcases hx with h | h | h | h | h
    · subst h; exact b64CodeOf_ne_44 _
    · subst h; exact b64CodeOf_ne_44 _
    · subst h; exact b64CodeOf_ne_44 _
    · subst h; exact b64CodeOf_ne_44 _
    · exact b64Encode_ne_44 rest x h

/-- Unfolding of the regex-match test. -/
theorem uriMatchAt_eq_true_iff (u : List ℕ) (i : ℕ) :
    uriMatchAt u i = true ↔
      (dataUriHead.length + b64Marker.length < (u.take i).length ∧
       (u.take i).take dataUriHead.length = dataUriHead ∧
       (u.take i).drop ((u.take i).length - b64Marker.length) = b64Marker ∧
       ∀ c ∈ ((u.take i).drop dataUriHead.length).take
           ((u.take i).length - dataUriHead.length - b64Marker.length), c ≠ 10) := by
  unfold uriMatchAt
  exact ⟨of_decide_eq_true, decide_eq_true⟩

/-- The greedy scan returns the unique maximal matching position. -/
theorem bestMatchAux_eq_of (u : List ℕ) (i₀ : ℕ) (h₀ : uriMatchAt u i₀ = true) :
    ∀ N, i₀ ≤ N → (∀ j, i₀ < j → j ≤ N → uriMatchAt u j = false) →
      bestMatchAux u N = some i₀ := by
  intro N
  induction N with
  | zero =>
    intro hle _
    have h00 : i₀ = 0 := by omega
    subst h00
    unfold bestMatchAux
    rw [if_pos h₀]
  | succ n ih =>
    intro hle habove
    by_cases heq : i₀ = n + 1
    · subst heq
      unfold bestMatchAux
      rw [if_pos h₀]
    · have h1 : uriMatchAt u (n + 1) = false := habove (n + 1) (by omega) (le_refl _)
      unfold bestMatchAux
      rw [if_neg (by simp [h1])]
      exact ih (by omega) (fun j hj hj2 => habove j hj (by omega))

/-- The pattern cannot match past the front when the payload has no comma:
any longer match would need its last character to be the comma of the
base64 marker. -/
theorem uriMatchAt_false_beyond (f p : List ℕ) (hp : ∀ x ∈ p, x ≠ 44)
    (i : ℕ) (hgt : f.length < i) (hle : i ≤ (f ++ p).length) :
    uriMatchAt (f ++ p) i = false := by
  rw [← Bool.not_eq_true]
  intro htrue
  obtain ⟨hlen, _, hsuf, _⟩ := (uriMatchAt_eq_true_iff _ _).mp htrue
  have hhead : dataUriHead.length = 11 := by decide
  have hmark : b64Marker.length = 8 := by decide
  have hprelen : ((f ++ p).take i).length = i := by
    rw [List.length_take]
    omega
  rw [hprelen] at hsuf
  rw [hhead, hmark, hprelen] at hlen
  have h7 : b64Marker[7]? = some 44 := by decide
  have h44 : ((f ++ p).take i)[i - 8 + 7]? = some 44 := by
    rw [hmark] at hsuf
    rw [← List.getElem?_drop, hsuf]
    exact h7
  have hidx : i - 8 + 7 = i - 1 := by omega
  rw [hidx, List.getElem?_take_of_lt (by omega)] at h44
  rw [List.getElem?_append_right (by omega)] at h44
  obtain ⟨hlt, hval⟩ := List.getElem?_eq_some_iff.mp h44
  exact hp 44 (hval ▸ List.getElem_mem hlt) rfl

/-- Stripping a data URI whose payload is comma-free removes exactly the
front. -/
theorem stripDataUri_concat (f p : List ℕ)
    (hm : uriMatchAt (f ++ p) f.length = true)
    (hp : ∀ x ∈ p, x ≠ 44) :
    stripDataUri (f ++ p) = p := by
  unfold stripDataUri
  rw [bestMatchAux_eq_of (f ++ p) f.length hm ((f ++ p).length)
      (by simp) (fun j hj hj2 => uriMatchAt_false_beyond f p hp j hj hj2)]
  exact List.drop_left f p

/-- `formatToMime` only ever produces the four image MIME types. -/
theorem formatToMime_mem (fl : String) :
    formatToMime fl ∈
      (["image/jpeg", "image/png", "image/webp", "image/gif"] : List String) := by
  unfold formatToMime
  cases h1 : fl == "jpeg" <;> cases h2 : fl == "jpg" <;> cases h3 : fl == "png" <;>
    cases h4 : fl == "webp" <;> cases h5 : fl == "gif" <;>
      simp [List.lookup, h1, h2, h3, h4, h5]

/-- `detect_image_mime_type` only ever produces the four image MIME types. -/
theorem detect_mime_mem (image_bytes : List ℕ) (pil : PILOutcome) :
    detect_image_mime_type image_bytes pil ∈
      (["image/jpeg", "image/png", "image/webp", "image/gif"] : List String) := by
  unfold detect_image_mime_type
  by_cases hb : image_bytes.isEmpty = true
  · rw [if_pos hb]; simp
  · rw [if_neg hb]
    cases pil with
    | failure => simp
    | opened fmt => exact formatToMime_mem _

/-- For each reachable MIME type, the regex matches exactly the generated
data-URI front. -/
theorem uriMatchAt_mime_front (m : String) (p : List ℕ)
    (hm : m ∈ (["image/jpeg", "image/png", "image/webp", "image/gif"] : List String)) :
    uriMatchAt ((strCodes "data:" ++ strCodes m ++ strCodes ";base64,") ++ p)
      (strCodes "data:" ++ strCodes m ++ strCodes ";base64,").length = true := by
  fin_cases hm <;>
  · simp only [uriMatchAt]
    rw [List.take_left]
    decide

/-- C3 (amended): for every non-empty byte sequence,
`decode_frontend_image (process_image_for_frontend bytes)` returns exactly the
original bytes, whatever format Pillow detects. -/
theorem c3_roundtrip_nonempty (image_bytes : List ℕ) (hne : image_bytes ≠ [])
    (hb : ∀ b ∈ image_bytes, b < 256) (pil : PILOutcome) :
    decode_frontend_image (process_image_for_frontend image_bytes pil) =
      some image_bytes := by
  unfold process_image_for_frontend
  rw [if_neg (by simp [hne])]
  unfold decode_frontend_image
  set m := detect_image_mime_type image_bytes pil with hm
  set f := strCodes "data:" ++ strCodes m ++ strCodes ";base64," with hf
  have hd : strCodes "data:" ≠ [] := by decide
  show (if (f ++ b64Encode image_bytes).isEmpty = true then none
        else b64Decode (stripDataUri (f ++ b64Encode image_bytes))) = some image_bytes
  rw [if_neg (by simp [List.isEmpty_iff, hf, hd])]
  rw [stripDataUri_concat f (b64Encode image_bytes)
      (uriMatchAt_mime_front m _ (detect_mime_mem _ _)) (b64Encode_ne_44 _)]
  exact b64_roundtrip image_bytes hb

/-- C3 counterexample: for the empty byte sequence the round trip fails —
`process_image_for_frontend` returns `None` and decoding `None` gives `None`,
not the empty byte string. -/
theorem c3_counterexample :
    decode_frontend_image (process_image_for_frontend [] .failure) ≠ some [] := by
  decide

/-- C3 witness. -/
theorem c3_witness :
    decode_frontend_image (process_image_for_frontend [72, 105] .failure) =
      some [72, 105] :=
  c3_roundtrip_nonempty [72, 105] (by decide) (by decide) .failure
